import Mathlib

/-!
Verification development for the LIS3DHTR accelerometer driver core
(libhal-stm-imu).  The driver exists in two transport variants:

* an addressed-bus (I2C) variant, `lis3dhtr_i2c`, and
* a chip-select (SPI) variant, `lis3dhtr_spi`.

Both are embedded below as explicit state-passing functions.  Machine
bytes are `Nat` values kept below 256 by masking, exactly as the C++
code masks through `hal::bit_value` / `hal::bit_modify`.  Fallible bus
traffic is modelled by a fault pattern (`List Bool`), one entry consumed
per bus transaction; an entry `true` makes that transaction fail, which
mirrors `HAL_CHECK` propagating the error and skipping the rest of the
function body.  Floating-point arithmetic in the sample decoder is
idealised over the rationals.
-/

namespace Lis3dhtr

/-! ### Register map (src/src/lis3dhtr_constants.hpp) -/

/-- Device identification register. -/
def who_am_i_register : Nat := 0x0F

/-- Data-rate / power-mode control register. -/
def ctrl_reg1 : Nat := 0x20

/-- Full-scale / SPI-mode control register. -/
def ctrl_reg4 : Nat := 0x23

/-- I2C sub-address byte used for the three-axis burst read
(constant named in the source, literal value 0xA8). -/
def read_xyz_axis : Nat := 0xA8

/-- Low byte of the X axis output register. -/
def out_x_l : Nat := 0x28

/-- Expected contents of the identity register. -/
def expected_id : Nat := 0x33

/-! ### Bit utilities (libhal-util semantics as used by the driver) -/

/-- The result of the C++ expression `hal::bit_modify(b).insert<mask>(v)` on an
8-bit register byte: clear the mask bits of the target and OR in the value
shifted to the field position, masked to the field. -/
def bitInsert8 (b v mask shift : Nat) : Nat :=
  (b &&& (0xFF ^^^ mask)) ||| ((v <<< shift) &&& mask)

/-- The 16-bit word both variants rebuild from an axis low byte and high byte:
low byte in bits [7:0], high byte in bits [15:8]. -/
def toU16 (lo hi : Nat) : Nat :=
  (lo &&& 0xFF) ||| ((hi <<< 8) &&& 0xFF00)

/-- The C++ reinterpretation `static_cast<int16_t>` of a 16-bit word. -/
def toI16 (w : Nat) : Int :=
  if w < 32768 then (w : Int) else (w : Int) - 65536

/-- The output limit in g computed by the driver:
`1 << (gscale_code + 1)`. -/
def outputLimit (code : Nat) : ℚ := ((1 <<< (code + 1) : Nat) : ℚ)

/-- Modelled from the spec: the libhal-util mapping function `hal::map`
(its source is not part of this repository).  Per the spec, the signed
16-bit value is mapped linearly from the domain [INT16_MAX, INT16_MIN]
to the range [-limit, +limit], and the map is monotonically increasing
with the raw value, sending INT16_MAX to +limit and INT16_MIN to
-limit.  The unique increasing affine map with those endpoint values
is the one below. -/
def specMap (v : Int) (limit : ℚ) : ℚ :=
  (((v : ℚ) + 32768) * (2 * limit)) / 65535 - limit

/-- Decoding of one axis from its two raw bytes at full-scale code
`code`: rebuild the 16-bit word, reinterpret as signed, map to g. -/
def decodeAxis (lo hi code : Nat) : ℚ :=
  specMap (toI16 (toU16 lo hi)) (outputLimit code)

/-! ### Common driver types -/

/-- A calibrated sample in g, the driver's `accelerometer::read_t`. -/
structure read_t where
  x : ℚ
  y : ℚ
  z : ℚ
deriving DecidableEq, Repr

/-- The two failure kinds of the spec: identity mismatch and
underlying-bus (transport) failure. -/
inductive DriverError where
  | mismatch : DriverError
  | transport : DriverError
deriving DecidableEq, Repr

/-- Pop the next fault flag from the fault pattern; an exhausted pattern
means the transaction succeeds. -/
def takeFault : List Bool → Bool × List Bool
  | [] => (false, [])
  | f :: rest => (f, rest)

/-- Update one register of a register file. -/
def writeReg (regs : Nat → Nat) (a v : Nat) : Nat → Nat :=
  fun r => if r = a then v else regs r

/-! ### Chip-select (SPI) variant: frame building

Each first frame byte is built as in the source with
`hal::bit_value(0U).insert<bit_mask::from<5,0>>(addr)` plus the read
flag (bit 7, `spi_read_bit_mask`) and/or the auto-increment flag
(bit 6, `spi_addr_inc_bit_mask`), then truncated `.to<hal::byte>()`. -/

/-- First frame byte of a single-register SPI read. -/
def spiReadFrame (addr : Nat) : Nat := ((addr &&& 0x3F) ||| 0x80) &&& 0xFF

/-- First frame byte of a register SPI write (the source sets the
auto-increment flag on its write frames). -/
def spiWriteFrame (addr : Nat) : Nat := ((addr &&& 0x3F) ||| 0x40) &&& 0xFF

/-- First frame byte of the multi-byte SPI burst read (read flag and
auto-increment flag both set). -/
def spiBurstReadFrame (addr : Nat) : Nat :=
  (((addr &&& 0x3F) ||| 0x80) ||| 0x40) &&& 0xFF

/-- State visible to the SPI variant: the device register file, the
chip-select line level (`true` = high = deasserted), and the
controller's stored full-scale code `m_gscale`. -/
structure SpiState where
  regs : Nat → Nat
  cs : Bool
  gscale : Nat

/-! ### Chip-select (SPI) variant: operations (src/src/lis3dhtr_spi.cpp)

Every operation returns its result, the final state, and the unconsumed
fault pattern.  `m_cs->level` is modelled as infallible; the fault
pattern drives the SPI transfers (`hal::write_then_read`, `hal::write`),
which is what the claims quantify over. -/

/-- lis3dhtr_spi::verify_device. -/
def spi_verify_device (s : SpiState) (faults : List Bool) :
    Except DriverError Unit × SpiState × List Bool :=
  let frame := spiReadFrame who_am_i_register
  let s1 : SpiState := { s with cs := false }
  let (f1, rest1) := takeFault faults
  if f1 then (Except.error DriverError.transport, s1, rest1)
  else
    let who := s1.regs (frame &&& 0x3F)
    let s2 : SpiState := { s1 with cs := true }
    if who = expected_id then (Except.ok (), s2, rest1)
    else (Except.error DriverError.mismatch, s2, rest1)

/-- lis3dhtr_spi::configure_data_rates: read-modify-write of bits [7:4]
of ctrl_reg1. -/
def spi_configure_data_rates (s : SpiState) (rate : Nat) (faults : List Bool) :
    Except DriverError Unit × SpiState × List Bool :=
  let readF := spiReadFrame ctrl_reg1
  let writeF := spiWriteFrame ctrl_reg1
  let s1 : SpiState := { s with cs := false }
  let (f1, rest1) := takeFault faults
  if f1 then (Except.error DriverError.transport, s1, rest1)
  else
    let data := s1.regs (readF &&& 0x3F)
    let s2 : SpiState := { s1 with cs := true }
    let newData := bitInsert8 data rate 0xF0 4
    let s3 : SpiState := { s2 with cs := false }
    let (f2, rest2) := takeFault rest1
    if f2 then (Except.error DriverError.transport, s3, rest2)
    else
      let s4 : SpiState :=
        { s3 with regs := writeReg s3.regs (writeF &&& 0x3F) newData, cs := true }
      (Except.ok (), s4, rest2)

/-- lis3dhtr_spi::power_on: data-rate mode 7. -/
def spi_power_on (s : SpiState) (faults : List Bool) :
    Except DriverError Unit × SpiState × List Bool :=
  spi_configure_data_rates s 0b0111 faults

/-- lis3dhtr_spi::power_off: data-rate mode 0. -/
def spi_power_off (s : SpiState) (faults : List Bool) :
    Except DriverError Unit × SpiState × List Bool :=
  spi_configure_data_rates s 0b0000 faults

/-- lis3dhtr_spi::configure_full_scale: stores the requested code into
`m_gscale` first (first statement of the C++ function body), then
read-modify-writes bits [5:4] of ctrl_reg4. -/
def spi_configure_full_scale (s : SpiState) (code : Nat) (faults : List Bool) :
    Except DriverError Unit × SpiState × List Bool :=
  let s0 : SpiState := { s with gscale := code }
  let readF := spiReadFrame ctrl_reg4
  let writeF := spiWriteFrame ctrl_reg4
  let s1 : SpiState := { s0 with cs := false }
  let (f1, rest1) := takeFault faults
  if f1 then (Except.error DriverError.transport, s1, rest1)
  else
    let data := s1.regs (readF &&& 0x3F)
    let s2 : SpiState := { s1 with cs := true }
    let newData := bitInsert8 data code 0x30 4
    let s3 : SpiState := { s2 with cs := false }
    let (f2, rest2) := takeFault rest1
    if f2 then (Except.error DriverError.transport, s3, rest2)
    else
      let s4 : SpiState :=
        { s3 with regs := writeReg s3.regs (writeF &&& 0x3F) newData, cs := true }
      (Except.ok (), s4, rest2)

/-- lis3dhtr_spi::configure_spi_mode: read-modify-write of bit 0 of
ctrl_reg4. -/
def spi_configure_spi_mode (s : SpiState) (mode : Nat) (faults : List Bool) :
    Except DriverError Unit × SpiState × List Bool :=
  let readF := spiReadFrame ctrl_reg4
  let writeF := spiWriteFrame ctrl_reg4
  let s1 : SpiState := { s with cs := false }
  let (f1, rest1) := takeFault faults
  if f1 then (Except.error DriverError.transport, s1, rest1)
  else
    let data := s1.regs (readF &&& 0x3F)
    let s2 : SpiState := { s1 with cs := true }
    let newData := bitInsert8 data mode 0x01 0
    let s3 : SpiState := { s2 with cs := false }
    let (f2, rest2) := takeFault rest1
    if f2 then (Except.error DriverError.transport, s3, rest2)
    else
      let s4 : SpiState :=
        { s3 with regs := writeReg s3.regs (writeF &&& 0x3F) newData, cs := true }
      (Except.ok (), s4, rest2)

/-- lis3dhtr_spi::driver_read: six-byte burst read from out_x_l with
read and auto-increment flags, then per-axis decode. -/
def spi_driver_read (s : SpiState) (faults : List Bool) :
    Except DriverError read_t × SpiState × List Bool :=
  let frame := spiBurstReadFrame out_x_l
  let s1 : SpiState := { s with cs := false }
  let (f1, rest1) := takeFault faults
  if f1 then (Except.error DriverError.transport, s1, rest1)
  else
    let base := frame &&& 0x3F
    let b0 := s1.regs base
    let b1 := s1.regs (base + 1)
    let b2 := s1.regs (base + 2)
    let b3 := s1.regs (base + 3)
    let b4 := s1.regs (base + 4)
    let b5 := s1.regs (base + 5)
    let s2 : SpiState := { s1 with cs := true }
    let g := s2.gscale
    (Except.ok ⟨decodeAxis b0 b1 g, decodeAxis b2 b3 g, decodeAxis b4 b5 g⟩,
      s2, rest1)

/-- lis3dhtr_spi::create: constructor stores `m_gscale`, then
configure_spi_mode(four_wire), verify_device, power_on,
configure_full_scale, each aborting the sequence on failure. -/
def spi_create (s : SpiState) (code : Nat) (faults : List Bool) :
    Except DriverError Unit × SpiState × List Bool :=
  let s0 : SpiState := { s with gscale := code }
  let (r1, s1, rest1) := spi_configure_spi_mode s0 0 faults
  match r1 with
  | Except.error e => (Except.error e, s1, rest1)
  | Except.ok _ =>
    let (r2, s2, rest2) := spi_verify_device s1 rest1
    match r2 with
    | Except.error e => (Except.error e, s2, rest2)
    | Except.ok _ =>
      let (r3, s3, rest3) := spi_power_on s2 rest2
      match r3 with
      | Except.error e => (Except.error e, s3, rest3)
      | Except.ok _ => spi_configure_full_scale s3 code rest3

/-! ### Addressed-bus (I2C) variant (src/tests/lis3dhtr_i2c.test.cpp,
which holds the I2C driver implementation)

On this bus the register sub-address byte is sent after the device
address.  The device treats bit 7 of the sub-address as the
auto-increment flag, so the register actually addressed is the low
7 bits of the sent byte. -/

/-- State visible to the I2C variant: the device register file, the
fixed device address `m_address`, and the stored full-scale code. -/
structure I2cState where
  regs : Nat → Nat
  address : Nat
  gscale : Nat

/-- lis3dhtr_i2c::verify_device. -/
def i2c_verify_device (s : I2cState) (faults : List Bool) :
    Except DriverError Unit × I2cState × List Bool :=
  let (f1, rest1) := takeFault faults
  if f1 then (Except.error DriverError.transport, s, rest1)
  else
    let who := s.regs (who_am_i_register &&& 0x7F)
    if who = expected_id then (Except.ok (), s, rest1)
    else (Except.error DriverError.mismatch, s, rest1)

/-- lis3dhtr_i2c::configure_data_rates. -/
def i2c_configure_data_rates (s : I2cState) (rate : Nat) (faults : List Bool) :
    Except DriverError Unit × I2cState × List Bool :=
  let (f1, rest1) := takeFault faults
  if f1 then (Except.error DriverError.transport, s, rest1)
  else
    let data := s.regs (ctrl_reg1 &&& 0x7F)
    let newData := bitInsert8 data rate 0xF0 4
    let (f2, rest2) := takeFault rest1
    if f2 then (Except.error DriverError.transport, s, rest2)
    else
      (Except.ok (), { s with regs := writeReg s.regs (ctrl_reg1 &&& 0x7F) newData },
        rest2)

/-- lis3dhtr_i2c::power_on. -/
def i2c_power_on (s : I2cState) (faults : List Bool) :
    Except DriverError Unit × I2cState × List Bool :=
  i2c_configure_data_rates s 0b0111 faults

/-- lis3dhtr_i2c::power_off. -/
def i2c_power_off (s : I2cState) (faults : List Bool) :
    Except DriverError Unit × I2cState × List Bool :=
  i2c_configure_data_rates s 0b0000 faults

/-- lis3dhtr_i2c::configure_full_scale: stores the requested code into
`m_gscale` first (first statement of the C++ function body), then
read-modify-writes bits [5:4] of ctrl_reg4. -/
def i2c_configure_full_scale (s : I2cState) (code : Nat) (faults : List Bool) :
    Except DriverError Unit × I2cState × List Bool :=
  let s0 : I2cState := { s with gscale := code }
  let (f1, rest1) := takeFault faults
  if f1 then (Except.error DriverError.transport, s0, rest1)
  else
    let data := s0.regs (ctrl_reg4 &&& 0x7F)
    let newData := bitInsert8 data code 0x30 4
    let (f2, rest2) := takeFault rest1
    if f2 then (Except.error DriverError.transport, s0, rest2)
    else
      (Except.ok (), { s0 with regs := writeReg s0.regs (ctrl_reg4 &&& 0x7F) newData },
        rest2)

/-- lis3dhtr_i2c::driver_read: six-byte burst read using the
read_xyz_axis sub-address byte (0xA8), then per-axis decode. -/
def i2c_driver_read (s : I2cState) (faults : List Bool) :
    Except DriverError read_t × I2cState × List Bool :=
  let (f1, rest1) := takeFault faults
  if f1 then (Except.error DriverError.transport, s, rest1)
  else
    let base := read_xyz_axis &&& 0x7F
    let b0 := s.regs base
    let b1 := s.regs (base + 1)
    let b2 := s.regs (base + 2)
    let b3 := s.regs (base + 3)
    let b4 := s.regs (base + 4)
    let b5 := s.regs (base + 5)
    let g := s.gscale
    (Except.ok ⟨decodeAxis b0 b1 g, decodeAxis b2 b3 g, decodeAxis b4 b5 g⟩,
      s, rest1)

/-- lis3dhtr_i2c::create: constructor stores `m_gscale`, then
verify_device, power_on, configure_full_scale, each aborting the
sequence on failure. -/
def i2c_create (s : I2cState) (code : Nat) (faults : List Bool) :
    Except DriverError Unit × I2cState × List Bool :=
  let s0 : I2cState := { s with gscale := code }
  let (r1, s1, rest1) := i2c_verify_device s0 faults
  match r1 with
  | Except.error e => (Except.error e, s1, rest1)
  | Except.ok _ =>
    let (r2, s2, rest2) := i2c_power_on s1 rest1
    match r2 with
    | Except.error e => (Except.error e, s2, rest2)
    | Except.ok _ => i2c_configure_full_scale s2 code rest2

end Lis3dhtr

/-! ### Bit-level toolbox -/

namespace Lis3dhtr

theorem testBit_false_of_lt {x w i : Nat} (hx : x < 2 ^ w) (hw : w ≤ i) :
    x.testBit i = false := by
  apply Nat.testBit_lt_two_pow
  exact lt_of_lt_of_le hx (Nat.pow_le_pow_right (by norm_num) hw)

theorem and_255_eq {lo : Nat} (hlo : lo < 256) : lo &&& 0xFF = lo := by
  apply Nat.eq_of_testBit_eq
  intro i
  rw [Nat.testBit_and]
  by_cases h8 : i < 8
  · have hm : Nat.testBit 0xFF i = true := by interval_cases i <;> decide
    simp [hm]
  · have hb : Nat.testBit lo i = false :=
      testBit_false_of_lt (show lo < 2 ^ 8 from hlo) (by omega)
    simp [hb]

theorem shift8_and_FF00 {hi : Nat} (hhi : hi < 256) :
    (hi <<< 8) &&& 0xFF00 = hi <<< 8 := by
  apply Nat.eq_of_testBit_eq
  intro i
  rw [Nat.testBit_and, Nat.testBit_shiftLeft]
  by_cases h8 : i < 8
  · have : ¬ (8 ≤ i) := by omega
    simp [this]
  · by_cases h16 : i < 16
    · have hm : Nat.testBit 0xFF00 i = true := by interval_cases i <;> decide
      simp [hm]
    · have hb : Nat.testBit hi (i - 8) = false :=
        testBit_false_of_lt (show hi < 2 ^ 8 from hhi) (by omega)
      have hm : Nat.testBit 0xFF00 i = false :=
        testBit_false_of_lt (show (0xFF00 : Nat) < 2 ^ 16 by norm_num) (by omega)
      simp [hb, hm]

/-- The 16-bit reconstruction both drivers perform is exactly
the high byte shifted into bits [15:8] OR-ed with the low byte. -/
theorem toU16_eq {lo hi : Nat} (hlo : lo < 256) (hhi : hi < 256) :
    toU16 lo hi = (hi <<< 8) ||| lo := by
  rw [toU16, and_255_eq hlo, shift8_and_FF00 hhi, Nat.lor_comm]

theorem bitInsert8_testBit_preserve {b v mask shift i : Nat} (hb : b < 256)
    (hmi : Nat.testBit mask i = false) :
    (bitInsert8 b v mask shift).testBit i = b.testBit i := by
  rw [bitInsert8, Nat.testBit_or, Nat.testBit_and, Nat.testBit_and,
    Nat.testBit_xor, hmi]
  by_cases h8 : i < 8
  · have h255 : Nat.testBit 255 i = true := by interval_cases i <;> decide
    simp [h255]
  · have hb' : b.testBit i = false :=
      testBit_false_of_lt (show b < 2 ^ 8 from hb) (by omega)
    have h255 : Nat.testBit 255 i = false :=
      testBit_false_of_lt (show (255 : Nat) < 2 ^ 8 by norm_num) (by omega)
    simp [h255, hb']

/-- Read-modify-write of the [7:4] field preserves every bit outside [7:4]. -/
theorem bitInsert8_preserve_240 {b i : Nat} (v : Nat) (hb : b < 256)
    (h : i < 4 ∨ 7 < i) :
    (bitInsert8 b v 0xF0 4).testBit i = b.testBit i := by
  apply bitInsert8_testBit_preserve hb
  rcases h with h | h
  · interval_cases i <;> decide
  · exact testBit_false_of_lt (show (0xF0 : Nat) < 2 ^ 8 by norm_num) (by omega)

/-- Read-modify-write of the [5:4] field preserves every bit outside [5:4]. -/
theorem bitInsert8_preserve_48 {b i : Nat} (v : Nat) (hb : b < 256)
    (h : i < 4 ∨ 5 < i) :
    (bitInsert8 b v 0x30 4).testBit i = b.testBit i := by
  apply bitInsert8_testBit_preserve hb
  rcases h with h | h
  · interval_cases i <;> decide
  · by_cases h8 : i < 8
    · interval_cases i <;> decide
    · exact testBit_false_of_lt (show (0x30 : Nat) < 2 ^ 8 by norm_num)
        (by omega)

/-- Read-modify-write of the [7:4] field puts the inserted value's bits
into the field. -/
theorem bitInsert8_field_240 (b v k : Nat) (hk : k < 4) :
    (bitInsert8 b v 0xF0 4).testBit (4 + k) = v.testBit k := by
  have h15 : Nat.testBit 15 (4 + k) = false := by interval_cases k <;> decide
  have h240 : Nat.testBit 240 (4 + k) = true := by interval_cases k <;> decide
  have h4k : 4 ≤ 4 + k := by omega
  simp [bitInsert8, Nat.testBit_or, Nat.testBit_and, Nat.testBit_shiftLeft,
    h15, h240, h4k]

/-- Read-modify-write of the [5:4] field puts the inserted value's bits
into the field. -/
theorem bitInsert8_field_48 (b v k : Nat) (hk : k < 2) :
    (bitInsert8 b v 0x30 4).testBit (4 + k) = v.testBit k := by
  have h1 : Nat.testBit 207 (4 + k) = false := by interval_cases k <;> decide
  have h2 : Nat.testBit 48 (4 + k) = true := by interval_cases k <;> decide
  have h4k : 4 ≤ 4 + k := by omega
  simp [bitInsert8, Nat.testBit_or, Nat.testBit_and, Nat.testBit_shiftLeft,
    h1, h2, h4k]

/-- Inserting the same field value twice is the same as inserting it once. -/
theorem bitInsert8_idem (b v mask shift : Nat) :
    bitInsert8 (bitInsert8 b v mask shift) v mask shift =
      bitInsert8 b v mask shift := by
  apply Nat.eq_of_testBit_eq
  intro i
  simp only [bitInsert8, Nat.testBit_or, Nat.testBit_and]
  cases hx : b.testBit i <;> cases hc : Nat.testBit (255 ^^^ mask) i <;>
    cases hs : (v <<< shift).testBit i <;> cases hm : mask.testBit i <;> simp

theorem writeReg_self (regs : Nat → Nat) (a v w : Nat) :
    writeReg (writeReg regs a v) a w = writeReg regs a w := by
  funext r
  by_cases h : r = a <;> simp [writeReg, h]

theorem writeReg_read (regs : Nat → Nat) (a v : Nat) :
    writeReg regs a v a = v := by simp [writeReg]

theorem writeReg_other {r a : Nat} (regs : Nat → Nat) (v : Nat) (h : r ≠ a) :
    writeReg regs a v r = regs r := by simp [writeReg, h]

end Lis3dhtr

/-! ### Evaluation helpers for the operations -/

namespace Lis3dhtr

theorem spi_verify_nil (s : SpiState) :
    spi_verify_device s [] =
      (if s.regs who_am_i_register = expected_id then Except.ok ()
       else Except.error DriverError.mismatch,
        { s with cs := true }, []) := by
  have e : ((((0x0F &&& 0x3F) ||| 0x80) &&& 0xFF) &&& 0x3F : Nat) = 0x0F := by
    decide
  by_cases h : s.regs who_am_i_register = expected_id <;>
    simp [spi_verify_device, takeFault, spiReadFrame, who_am_i_register,
      expected_id] at h ⊢ <;> simp [h, e]

theorem spi_cdr_nil (s : SpiState) (rate : Nat) :
    spi_configure_data_rates s rate [] =
      (Except.ok (),
        { s with
          regs := writeReg s.regs ctrl_reg1
            (bitInsert8 (s.regs ctrl_reg1) rate 0xF0 4),
          cs := true }, []) := rfl

theorem spi_cfs_nil (s : SpiState) (code : Nat) :
    spi_configure_full_scale s code [] =
      (Except.ok (),
        { s with
          regs := writeReg s.regs ctrl_reg4
            (bitInsert8 (s.regs ctrl_reg4) code 0x30 4),
          cs := true, gscale := code }, []) := rfl

theorem spi_mode_nil (s : SpiState) (mode : Nat) :
    spi_configure_spi_mode s mode [] =
      (Except.ok (),
        { s with
          regs := writeReg s.regs ctrl_reg4
            (bitInsert8 (s.regs ctrl_reg4) mode 0x01 0),
          cs := true }, []) := rfl

theorem spi_read_nil (s : SpiState) :
    spi_driver_read s [] =
      (Except.ok
        ⟨decodeAxis (s.regs 0x28) (s.regs 0x29) s.gscale,
         decodeAxis (s.regs 0x2A) (s.regs 0x2B) s.gscale,
         decodeAxis (s.regs 0x2C) (s.regs 0x2D) s.gscale⟩,
        { s with cs := true }, []) := rfl

theorem i2c_verify_nil (s : I2cState) :
    i2c_verify_device s [] =
      (if s.regs who_am_i_register = expected_id then Except.ok ()
       else Except.error DriverError.mismatch, s, []) := by
  have e : ((0x0F &&& 0x7F) : Nat) = 0x0F := by decide
  by_cases h : s.regs who_am_i_register = expected_id <;>
    simp [i2c_verify_device, takeFault, who_am_i_register, expected_id]
      at h ⊢ <;> simp [h, e]

theorem i2c_cdr_nil (s : I2cState) (rate : Nat) :
    i2c_configure_data_rates s rate [] =
      (Except.ok (),
        { s with
          regs := writeReg s.regs ctrl_reg1
            (bitInsert8 (s.regs ctrl_reg1) rate 0xF0 4) }, []) := rfl

theorem i2c_cfs_nil (s : I2cState) (code : Nat) :
    i2c_configure_full_scale s code [] =
      (Except.ok (),
        { s with
          regs := writeReg s.regs ctrl_reg4
            (bitInsert8 (s.regs ctrl_reg4) code 0x30 4),
          gscale := code }, []) := rfl

theorem i2c_read_nil (s : I2cState) :
    i2c_driver_read s [] =
      (Except.ok
        ⟨decodeAxis (s.regs 0x28) (s.regs 0x29) s.gscale,
         decodeAxis (s.regs 0x2A) (s.regs 0x2B) s.gscale,
         decodeAxis (s.regs 0x2C) (s.regs 0x2D) s.gscale⟩,
        s, []) := rfl

/-! ### Concrete decode evaluations -/

theorem outputLimit_eval (c : Nat) : outputLimit c = 2 ^ (c + 1) := by
  rw [outputLimit, Nat.shiftLeft_eq, one_mul]
  push_cast
  rfl

theorem decode_max_2g : decodeAxis 255 127 0 = 2 := by
  have h1 : toU16 255 127 = 32767 := by decide
  have h2 : toI16 32767 = 32767 := by decide
  have h3 : outputLimit 0 = 2 := by rw [outputLimit_eval]; norm_num
  rw [decodeAxis, h1, h2, h3, specMap]
  norm_num

theorem decode_min_2g : decodeAxis 0 128 0 = -2 := by
  have h1 : toU16 0 128 = 32768 := by decide
  have h2 : toI16 32768 = -32768 := by decide
  have h3 : outputLimit 0 = 2 := by rw [outputLimit_eval]; norm_num
  rw [decodeAxis, h1, h2, h3, specMap]
  norm_num

theorem decode_zero_2g : decodeAxis 0 0 0 = 2 / 65535 := by
  have h1 : toU16 0 0 = 0 := by decide
  have h2 : toI16 0 = 0 := by decide
  have h3 : outputLimit 0 = 2 := by rw [outputLimit_eval]; norm_num
  rw [decodeAxis, h1, h2, h3, specMap]
  norm_num

end Lis3dhtr

/-! ### Claim theorems -/

namespace Lis3dhtr

/-- Claim C3 (code bug): the claim states that configure_full_scale
updates the controller's stored range only after the register write
succeeds, leaving it unchanged on a bus failure.  The code stores the
requested range as its very first statement: evaluating both variants
with prior stored range g2 (code 0), requested range g16 (code 3) and a
failing first bus transaction shows the call fails with a transport
error yet the stored range has already become 3. -/
theorem C3_code_bug_eval :
    (spi_configure_full_scale ⟨fun _ => 0, true, 0⟩ 3 [true]).1
        = Except.error DriverError.transport ∧
    (spi_configure_full_scale ⟨fun _ => 0, true, 0⟩ 3 [true]).2.1.gscale = 3 ∧
    (i2c_configure_full_scale ⟨fun _ => 0, 0x18, 0⟩ 3 [true]).1
        = Except.error DriverError.transport ∧
    (i2c_configure_full_scale ⟨fun _ => 0, 0x18, 0⟩ 3 [true]).2.1.gscale = 3 :=
  ⟨rfl, rfl, rfl, rfl⟩

/-- Claim C4 (code bug): the claim states the chip-select line is back
at the deasserted (high) level whenever an operation returns, including
when a transport call fails mid-sequence.  Evaluating the operations
with chip-select initially high and a failing SPI transfer shows every
one of them returns with the line still asserted (low), because the
failure propagates before the final level(true) call. -/
theorem C4_code_bug_eval :
    (spi_verify_device ⟨fun _ => 0x33, true, 0⟩ [true]).2.1.cs = false ∧
    (spi_configure_data_rates ⟨fun _ => 0, true, 0⟩ 7 [false, true]).2.1.cs
        = false ∧
    (spi_configure_full_scale ⟨fun _ => 0, true, 0⟩ 1 [true]).2.1.cs = false ∧
    (spi_configure_spi_mode ⟨fun _ => 0, true, 0⟩ 0 [true]).2.1.cs = false ∧
    (spi_driver_read ⟨fun _ => 0, true, 0⟩ [true]).2.1.cs = false :=
  ⟨rfl, rfl, rfl, rfl, rfl⟩

/-- Claim C6 (confirmed): every first frame byte the chip-select variant
sends carries the register address in bits [5:0] and has bit 7 set
exactly when the access is a read; the six-byte three-axis burst read
frame is 0xE8, with both the read flag (bit 7) and the auto-increment
flag (bit 6) set on top of register 0x28. -/
theorem C6_thm :
    (spiReadFrame who_am_i_register &&& 0x3F = who_am_i_register ∧
      Nat.testBit (spiReadFrame who_am_i_register) 7 = true) ∧
    (spiReadFrame ctrl_reg1 &&& 0x3F = ctrl_reg1 ∧
      Nat.testBit (spiReadFrame ctrl_reg1) 7 = true) ∧
    (spiReadFrame ctrl_reg4 &&& 0x3F = ctrl_reg4 ∧
      Nat.testBit (spiReadFrame ctrl_reg4) 7 = true) ∧
    (spiWriteFrame ctrl_reg1 &&& 0x3F = ctrl_reg1 ∧
      Nat.testBit (spiWriteFrame ctrl_reg1) 7 = false) ∧
    (spiWriteFrame ctrl_reg4 &&& 0x3F = ctrl_reg4 ∧
      Nat.testBit (spiWriteFrame ctrl_reg4) 7 = false) ∧
    (spiBurstReadFrame out_x_l = 0xE8 ∧
      spiBurstReadFrame out_x_l &&& 0x3F = out_x_l ∧
      Nat.testBit (spiBurstReadFrame out_x_l) 7 = true ∧
      Nat.testBit (spiBurstReadFrame out_x_l) 6 = true ∧
      out_x_l = 0x28) := by
  decide

/-- Claim C7 counterexample: the claim states the addressed-bus variant
sends every register address as-is with no extra flag bits, in
particular 0x28 for the six-byte burst read.  The byte the burst read
actually sends is the constant read_xyz_axis = 0xA8, which is not 0x28
and has flag bit 7 set. -/
theorem C7_counterexample :
    read_xyz_axis = 0xA8 ∧ ¬ read_xyz_axis = 0x28 ∧
      Nat.testBit read_xyz_axis 7 = true := by
  decide

/-- Claim C7 (corrected): in the addressed-bus variant the
single-register accesses send the register address as-is (0x0F, 0x20,
0x23, each with bit 7 clear), while the six-byte burst read sends 0xA8:
register address 0x28 in bits [6:0] with bit 7 set as the device's
auto-increment flag, so the burst starts at register 0x28. -/
theorem C7_amended :
    (Nat.testBit who_am_i_register 7 = false ∧
      who_am_i_register &&& 0x7F = who_am_i_register) ∧
    (Nat.testBit ctrl_reg1 7 = false ∧ ctrl_reg1 &&& 0x7F = ctrl_reg1) ∧
    (Nat.testBit ctrl_reg4 7 = false ∧ ctrl_reg4 &&& 0x7F = ctrl_reg4) ∧
    (read_xyz_axis = 0xA8 ∧ Nat.testBit read_xyz_axis 7 = true ∧
      read_xyz_axis &&& 0x7F = out_x_l ∧ out_x_l = 0x28) := by
  decide

/-- Claim C10 (confirmed): read() never modifies the controller's stored
configuration: for both variants and for every outcome of the burst
transfer (success or transport failure), the stored full-scale code, and
for the addressed-bus variant the device address, are unchanged. -/
theorem C10_thm (s : SpiState) (t : I2cState) (fs ft : List Bool) :
    (spi_driver_read s fs).2.1.gscale = s.gscale ∧
    (i2c_driver_read t ft).2.1.gscale = t.gscale ∧
    (i2c_driver_read t ft).2.1.address = t.address := by
  refine ⟨?_, ?_, ?_⟩
  · rcases fs with _ | ⟨f, rest⟩
    · simp [spi_driver_read, takeFault]
    · cases f <;> simp [spi_driver_read, takeFault]
  · rcases ft with _ | ⟨f, rest⟩
    · simp [i2c_driver_read, takeFault]
    · cases f <;> simp [i2c_driver_read, takeFault]
  · rcases ft with _ | ⟨f, rest⟩
    · simp [i2c_driver_read, takeFault]
    · cases f <;> simp [i2c_driver_read, takeFault]

end Lis3dhtr

namespace Lis3dhtr

theorem idem_spi_cdr (s : SpiState) (rate : Nat) :
    (spi_configure_data_rates
        (spi_configure_data_rates s rate []).2.1 rate []).2.1
      = (spi_configure_data_rates s rate []).2.1 := by
  simp [spi_cdr_nil, writeReg_read, writeReg_self, bitInsert8_idem]

theorem idem_spi_cfs (s : SpiState) (code : Nat) :
    (spi_configure_full_scale
        (spi_configure_full_scale s code []).2.1 code []).2.1
      = (spi_configure_full_scale s code []).2.1 := by
  simp [spi_cfs_nil, writeReg_read, writeReg_self, bitInsert8_idem]

theorem idem_spi_mode (s : SpiState) (mode : Nat) :
    (spi_configure_spi_mode
        (spi_configure_spi_mode s mode []).2.1 mode []).2.1
      = (spi_configure_spi_mode s mode []).2.1 := by
  simp [spi_mode_nil, writeReg_read, writeReg_self, bitInsert8_idem]

theorem idem_i2c_cdr (t : I2cState) (rate : Nat) :
    (i2c_configure_data_rates
        (i2c_configure_data_rates t rate []).2.1 rate []).2.1
      = (i2c_configure_data_rates t rate []).2.1 := by
  simp [i2c_cdr_nil, writeReg_read, writeReg_self, bitInsert8_idem]

theorem idem_i2c_cfs (t : I2cState) (code : Nat) :
    (i2c_configure_full_scale
        (i2c_configure_full_scale t code []).2.1 code []).2.1
      = (i2c_configure_full_scale t code []).2.1 := by
  simp [i2c_cfs_nil, writeReg_read, writeReg_self, bitInsert8_idem]

/-- Claim C9 (confirmed): every configuration operation (power_on,
power_off, configure_data_rates, configure_full_scale,
configure_spi_mode) is idempotent: for every device register state and
every argument, running the operation twice with the same argument (with
the bus transactions succeeding) yields the same device registers and
stored configuration as running it once, in both variants. -/
theorem C9_thm (s : SpiState) (t : I2cState) (rate code mode : Nat) :
    ((spi_power_on (spi_power_on s []).2.1 []).2.1 = (spi_power_on s []).2.1) ∧
    ((spi_power_off (spi_power_off s []).2.1 []).2.1
        = (spi_power_off s []).2.1) ∧
    ((spi_configure_data_rates
        (spi_configure_data_rates s rate []).2.1 rate []).2.1
        = (spi_configure_data_rates s rate []).2.1) ∧
    ((spi_configure_full_scale
        (spi_configure_full_scale s code []).2.1 code []).2.1
        = (spi_configure_full_scale s code []).2.1) ∧
    ((spi_configure_spi_mode
        (spi_configure_spi_mode s mode []).2.1 mode []).2.1
        = (spi_configure_spi_mode s mode []).2.1) ∧
    ((i2c_power_on (i2c_power_on t []).2.1 []).2.1 = (i2c_power_on t []).2.1) ∧
    ((i2c_power_off (i2c_power_off t []).2.1 []).2.1
        = (i2c_power_off t []).2.1) ∧
    ((i2c_configure_data_rates
        (i2c_configure_data_rates t rate []).2.1 rate []).2.1
        = (i2c_configure_data_rates t rate []).2.1) ∧
    ((i2c_configure_full_scale
        (i2c_configure_full_scale t code []).2.1 code []).2.1
        = (i2c_configure_full_scale t code []).2.1) :=
  ⟨idem_spi_cdr s 0b0111, idem_spi_cdr s 0b0000, idem_spi_cdr s rate,
    idem_spi_cfs s code, idem_spi_mode s mode, idem_i2c_cdr t 0b0111,
    idem_i2c_cdr t 0b0000, idem_i2c_cdr t rate, idem_i2c_cfs t code⟩

end Lis3dhtr

namespace Lis3dhtr

/-- Claim C5 (confirmed): the read-modify-write configuration operations
preserve every bit position outside their targeted field: for every
current control-register byte, configure_data_rates writes back a byte
differing from it only in bits [7:4] of ctrl_reg1, and
configure_full_scale writes back a byte differing only in bits [5:4] of
ctrl_reg4, in both variants. -/
theorem C5_thm (s : SpiState) (t : I2cState) (rate code : Nat)
    (h1 : s.regs ctrl_reg1 < 256) (h4 : s.regs ctrl_reg4 < 256)
    (g1 : t.regs ctrl_reg1 < 256) (g4 : t.regs ctrl_reg4 < 256) :
    (∀ i, i < 4 ∨ 7 < i →
      ((spi_configure_data_rates s rate []).2.1.regs ctrl_reg1).testBit i
        = (s.regs ctrl_reg1).testBit i) ∧
    (∀ i, i < 4 ∨ 5 < i →
      ((spi_configure_full_scale s code []).2.1.regs ctrl_reg4).testBit i
        = (s.regs ctrl_reg4).testBit i) ∧
    (∀ i, i < 4 ∨ 7 < i →
      ((i2c_configure_data_rates t rate []).2.1.regs ctrl_reg1).testBit i
        = (t.regs ctrl_reg1).testBit i) ∧
    (∀ i, i < 4 ∨ 5 < i →
      ((i2c_configure_full_scale t code []).2.1.regs ctrl_reg4).testBit i
        = (t.regs ctrl_reg4).testBit i) := by
  refine ⟨fun i hi => ?_, fun i hi => ?_, fun i hi => ?_, fun i hi => ?_⟩
  · simp only [spi_cdr_nil, writeReg_read]
    exact bitInsert8_preserve_240 rate h1 hi
  · simp only [spi_cfs_nil, writeReg_read]
    exact bitInsert8_preserve_48 code h4 hi
  · simp only [i2c_cdr_nil, writeReg_read]
    exact bitInsert8_preserve_240 rate g1 hi
  · simp only [i2c_cfs_nil, writeReg_read]
    exact bitInsert8_preserve_48 code g4 hi

/-- Witness for C5 at a concrete state whose control registers hold
0x5A (set bits inside and outside the fields). -/
theorem C5_witness :
    ((⟨fun _ => 0x5A, true, 0⟩ : SpiState).regs ctrl_reg1 < 256) ∧
    ((spi_configure_data_rates (⟨fun _ => 0x5A, true, 0⟩ : SpiState) 7
        []).2.1.regs ctrl_reg1).testBit 0
      = ((⟨fun _ => 0x5A, true, 0⟩ : SpiState).regs ctrl_reg1).testBit 0 :=
  ⟨by decide,
    (C5_thm ⟨fun _ => 0x5A, true, 0⟩ ⟨fun _ => 0x5A, 0x18, 0⟩ 7 3
      (by decide) (by decide) (by decide) (by decide)).1 0
      (Or.inl (by decide))⟩

/-- Claim C8 (confirmed): power_on writes mode 7 (0b0111) into the
data-rate field (bits [7:4] of ctrl_reg1) and power_off writes mode 0
into the same field; neither changes any other bit of ctrl_reg1, any
other register, or the stored full-scale code, in both variants. -/
theorem C8_thm (s : SpiState) (t : I2cState)
    (h1 : s.regs ctrl_reg1 < 256) (g1 : t.regs ctrl_reg1 < 256) :
    (∀ k, k < 4 → ((spi_power_on s []).2.1.regs ctrl_reg1).testBit (4 + k)
        = Nat.testBit 0b0111 k) ∧
    (∀ i, i < 4 ∨ 7 < i → ((spi_power_on s []).2.1.regs ctrl_reg1).testBit i
        = (s.regs ctrl_reg1).testBit i) ∧
    (∀ r, r ≠ ctrl_reg1 → (spi_power_on s []).2.1.regs r = s.regs r) ∧
    ((spi_power_on s []).2.1.gscale = s.gscale) ∧
    (∀ k, k < 4 → ((spi_power_off s []).2.1.regs ctrl_reg1).testBit (4 + k)
        = Nat.testBit 0b0000 k) ∧
    (∀ i, i < 4 ∨ 7 < i → ((spi_power_off s []).2.1.regs ctrl_reg1).testBit i
        = (s.regs ctrl_reg1).testBit i) ∧
    (∀ r, r ≠ ctrl_reg1 → (spi_power_off s []).2.1.regs r = s.regs r) ∧
    ((spi_power_off s []).2.1.gscale = s.gscale) ∧
    (∀ k, k < 4 → ((i2c_power_on t []).2.1.regs ctrl_reg1).testBit (4 + k)
        = Nat.testBit 0b0111 k) ∧
    (∀ i, i < 4 ∨ 7 < i → ((i2c_power_on t []).2.1.regs ctrl_reg1).testBit i
        = (t.regs ctrl_reg1).testBit i) ∧
    (∀ r, r ≠ ctrl_reg1 → (i2c_power_on t []).2.1.regs r = t.regs r) ∧
    ((i2c_power_on t []).2.1.gscale = t.gscale) ∧
    (∀ k, k < 4 → ((i2c_power_off t []).2.1.regs ctrl_reg1).testBit (4 + k)
        = Nat.testBit 0b0000 k) ∧
    (∀ i, i < 4 ∨ 7 < i → ((i2c_power_off t []).2.1.regs ctrl_reg1).testBit i
        = (t.regs ctrl_reg1).testBit i) ∧
    (∀ r, r ≠ ctrl_reg1 → (i2c_power_off t []).2.1.regs r = t.regs r) ∧
    ((i2c_power_off t []).2.1.gscale = t.gscale) := by
  refine ⟨fun k hk => ?_, fun i hi => ?_, fun r hr => ?_, ?_,
    fun k hk => ?_, fun i hi => ?_, fun r hr => ?_, ?_,
    fun k hk => ?_, fun i hi => ?_, fun r hr => ?_, ?_,
    fun k hk => ?_, fun i hi => ?_, fun r hr => ?_, ?_⟩
  · simp only [spi_power_on, spi_cdr_nil, writeReg_read]
    exact bitInsert8_field_240 _ 0b0111 k hk
  · simp only [spi_power_on, spi_cdr_nil, writeReg_read]
    exact bitInsert8_preserve_240 0b0111 h1 hi
  · simp only [spi_power_on, spi_cdr_nil]
    exact writeReg_other _ _ hr
  · simp only [spi_power_on, spi_cdr_nil]
  · simp only [spi_power_off, spi_cdr_nil, writeReg_read]
    exact bitInsert8_field_240 _ 0b0000 k hk
  · simp only [spi_power_off, spi_cdr_nil, writeReg_read]
    exact bitInsert8_preserve_240 0b0000 h1 hi
  · simp only [spi_power_off, spi_cdr_nil]
    exact writeReg_other _ _ hr
  · simp only [spi_power_off, spi_cdr_nil]
  · simp only [i2c_power_on, i2c_cdr_nil, writeReg_read]
    exact bitInsert8_field_240 _ 0b0111 k hk
  · simp only [i2c_power_on, i2c_cdr_nil, writeReg_read]
    exact bitInsert8_preserve_240 0b0111 g1 hi
  · simp only [i2c_power_on, i2c_cdr_nil]
    exact writeReg_other _ _ hr
  · simp only [i2c_power_on, i2c_cdr_nil]
  · simp only [i2c_power_off, i2c_cdr_nil, writeReg_read]
    exact bitInsert8_field_240 _ 0b0000 k hk
  · simp only [i2c_power_off, i2c_cdr_nil, writeReg_read]
    exact bitInsert8_preserve_240 0b0000 g1 hi
  · simp only [i2c_power_off, i2c_cdr_nil]
    exact writeReg_other _ _ hr
  · simp only [i2c_power_off, i2c_cdr_nil]

/-- Witness for C8 at a concrete state whose ctrl_reg1 holds 0x5A. -/
theorem C8_witness :
    ((⟨fun _ => 0x5A, true, 0⟩ : SpiState).regs ctrl_reg1 < 256) ∧
    ((spi_power_on (⟨fun _ => 0x5A, true, 0⟩ : SpiState)
        []).2.1.regs ctrl_reg1).testBit (4 + 0) = Nat.testBit 0b0111 0 :=
  ⟨by decide,
    (C8_thm ⟨fun _ => 0x5A, true, 0⟩ ⟨fun _ => 0x5A, 0x18, 0⟩
      (by decide) (by decide)).1 0 (by decide)⟩

end Lis3dhtr

namespace Lis3dhtr

/-- Claim C2 (confirmed): verify_device succeeds exactly when the
identity register (0x0F) reads back 0x33; any other byte yields the
device-mismatch failure, and during create no later initialization step
(power-on, full-scale configuration) runs after such a mismatch: the
final state of a mismatching create is exactly the state left by the
steps preceding verification. -/
theorem C2_thm (s : SpiState) (t : I2cState) (code : Nat)
    (hs : s.regs who_am_i_register ≠ expected_id)
    (ht : t.regs who_am_i_register ≠ expected_id) :
    (∀ u : SpiState, (spi_verify_device u []).1 = Except.ok () ↔
      u.regs who_am_i_register = expected_id) ∧
    (∀ u : I2cState, (i2c_verify_device u []).1 = Except.ok () ↔
      u.regs who_am_i_register = expected_id) ∧
    ((spi_verify_device s []).1 = Except.error DriverError.mismatch) ∧
    ((i2c_verify_device t []).1 = Except.error DriverError.mismatch) ∧
    (spi_create s code [] = (Except.error DriverError.mismatch,
      (spi_verify_device
        (spi_configure_spi_mode { s with gscale := code } 0 []).2.1 []).2.1,
      [])) ∧
    (i2c_create t code [] =
      (Except.error DriverError.mismatch, { t with gscale := code }, [])) := by
  have key : ∀ u : SpiState, (spi_verify_device u []).1 = Except.ok () ↔
      u.regs who_am_i_register = expected_id := by
    intro u
    rw [spi_verify_nil]
    by_cases h : u.regs who_am_i_register = expected_id <;> simp [h]
  have key2 : ∀ u : I2cState, (i2c_verify_device u []).1 = Except.ok () ↔
      u.regs who_am_i_register = expected_id := by
    intro u
    rw [i2c_verify_nil]
    by_cases h : u.regs who_am_i_register = expected_id <;> simp [h]
  have hcond : writeReg s.regs ctrl_reg4
      (bitInsert8 (s.regs ctrl_reg4) 0 0x01 0) who_am_i_register
        ≠ expected_id := by
    rw [writeReg_other _ _ (show who_am_i_register ≠ ctrl_reg4 by decide)]
    exact hs
  refine ⟨key, key2, ?_, ?_, ?_, ?_⟩
  · rw [spi_verify_nil]
    simp [hs]
  · rw [i2c_verify_nil]
    simp [ht]
  · simp [spi_create, spi_mode_nil, spi_verify_nil, hcond]
  · simp [i2c_create, i2c_verify_nil, ht]

/-- Witness for C2 at a device whose identity register reads 0x00. -/
theorem C2_witness :
    ((⟨fun _ => 0, true, 0⟩ : SpiState).regs who_am_i_register
        ≠ expected_id) ∧
    (spi_verify_device (⟨fun _ => 0, true, 0⟩ : SpiState) []).1
        = Except.error DriverError.mismatch :=
  ⟨by decide,
    (C2_thm ⟨fun _ => 0, true, 0⟩ ⟨fun _ => 0, 0x18, 0⟩ 2
      (by decide) (by decide)).2.2.1⟩

end Lis3dhtr

namespace Lis3dhtr

/-- Claim C1 counterexample: the claim states that raw value v = 0 maps
to exactly 0.  Reading all-zero raw bytes (v = 0 on every axis) at
full-scale code 0 (limit 2) returns 2/65535 on every axis in both
variants, and 2/65535 is not 0: the increasing affine map from
[-32768, 32767] onto [-limit, limit] does not fix 0. -/
theorem C1_counterexample :
    (spi_driver_read ⟨fun _ => 0, true, 0⟩ []).1
        = Except.ok ⟨2 / 65535, 2 / 65535, 2 / 65535⟩ ∧
    (i2c_driver_read ⟨fun _ => 0, 0x18, 0⟩ []).1
        = Except.ok ⟨2 / 65535, 2 / 65535, 2 / 65535⟩ ∧
    ((2 / 65535 : ℚ) ≠ 0) := by
  refine ⟨?_, ?_, by norm_num⟩
  · simp [spi_read_nil, decode_zero_2g]
  · simp [i2c_read_nil, decode_zero_2g]

/-- Claim C1 (corrected): for every six-byte raw sample in order
[x_low, x_high, y_low, y_high, z_low, z_high] and every full-scale code,
read() reconstructs each axis as (high <<< 8) ||| low, reinterprets it
as signed 16-bit, and maps it by the increasing affine map onto
[-limit, +limit] with limit = 2^(code+1); v = 32767 maps to +limit and
v = -32768 to -limit, while v = 0 maps to limit/65535 (not exactly 0),
in both the addressed-bus and chip-select variants. -/
theorem C1_thm (s : SpiState) (t : I2cState)
    (hs : ∀ r, s.regs r < 256) (ht : ∀ r, t.regs r < 256) :
    (∀ c : Nat, outputLimit c = 2 ^ (c + 1)) ∧
    (∀ c : Nat, specMap 32767 (outputLimit c) = outputLimit c) ∧
    (∀ c : Nat, specMap (-32768) (outputLimit c) = - outputLimit c) ∧
    (∀ c : Nat, specMap 0 (outputLimit c) = outputLimit c / 65535) ∧
    (spi_driver_read s [] = (Except.ok
      ⟨specMap (toI16 ((s.regs 0x29 <<< 8) ||| s.regs 0x28))
          (outputLimit s.gscale),
        specMap (toI16 ((s.regs 0x2B <<< 8) ||| s.regs 0x2A))
          (outputLimit s.gscale),
        specMap (toI16 ((s.regs 0x2D <<< 8) ||| s.regs 0x2C))
          (outputLimit s.gscale)⟩,
      { s with cs := true }, [])) ∧
    (i2c_driver_read t [] = (Except.ok
      ⟨specMap (toI16 ((t.regs 0x29 <<< 8) ||| t.regs 0x28))
          (outputLimit t.gscale),
        specMap (toI16 ((t.regs 0x2B <<< 8) ||| t.regs 0x2A))
          (outputLimit t.gscale),
        specMap (toI16 ((t.regs 0x2D <<< 8) ||| t.regs 0x2C))
          (outputLimit t.gscale)⟩,
      t, [])) := by
  have e1 : ∀ L : ℚ, specMap 32767 L = L := by
    intro L
    rw [specMap]
    push_cast
    ring
  have e2 : ∀ L : ℚ, specMap (-32768) L = -L := by
    intro L
    rw [specMap]
    push_cast
    ring
  have e3 : ∀ L : ℚ, specMap 0 L = L / 65535 := by
    intro L
    rw [specMap]
    push_cast
    ring
  refine ⟨fun c => outputLimit_eval c, fun c => e1 _, fun c => e2 _,
    fun c => e3 _, ?_, ?_⟩
  · rw [spi_read_nil]
    simp only [decodeAxis]
    rw [toU16_eq (hs 0x28) (hs 0x29), toU16_eq (hs 0x2A) (hs 0x2B),
      toU16_eq (hs 0x2C) (hs 0x2D)]
  · rw [i2c_read_nil]
    simp only [decodeAxis]
    rw [toU16_eq (ht 0x28) (ht 0x29), toU16_eq (ht 0x2A) (ht 0x2B),
      toU16_eq (ht 0x2C) (ht 0x2D)]

/-- Witness for C1 at a concrete all-zero register file. -/
theorem C1_witness :
    (∀ r, (⟨fun _ => 0, true, 0⟩ : SpiState).regs r < 256) ∧
    outputLimit 0 = 2 ^ (0 + 1) :=
  ⟨fun r => (by decide : (0 : Nat) < 256),
    (C1_thm ⟨fun _ => 0, true, 0⟩ ⟨fun _ => 0, 0x18, 0⟩
      (fun r => (by decide : (0 : Nat) < 256))
      (fun r => (by decide : (0 : Nat) < 256))).1 0⟩

end Lis3dhtr
